import Mathlib

/-!
# Verification of the `hues` resource cache and event-reconciliation engine

Shallow embedding of the cache store, event reconciler and client façade of
the `hues` smart-home client (src/service/bridge.rs, src/service/light.rs,
src/command/mod.rs, src/event/mod.rs), together with proofs of the spec
claims about them.

Modelling conventions:
* `serde_json::Value` is embedded as `Hues.Json`; JSON objects are
  association lists with unique keys (serde's map), numbers are embedded by
  their exact numeric value (no arithmetic is ever performed on them).
* The typed per-kind resource structs (`LightData`, `SceneData`, …) are
  treated as opaque, schema-tagged JSON documents paired with their `id`
  field, exactly as the spec's scope section prescribes ("the full resource
  schema … treated as an opaque, type-tagged payload").  Serialization of a
  stored struct back to JSON (`merge_resource_data`) is therefore the
  identity on the stored document.
* Rust panics (`expect`, `unwrap`, `todo!`) in the reconciliation path are
  embedded as `Except.error` with the panic message, so that "the code
  panics on this input" is an evaluable proposition.
* `HashMap<String, _>` is embedded as `Hues.Smap`, an association list with
  first-match lookup; `insert` replaces the first matching entry in place or
  appends, `remove`/`retain` filter by key — on unique-key lists these are
  exactly the map semantics of the source.
-/

namespace Hues

/-- Embedded `serde_json::Value`. Objects are key/value association lists. -/
inductive Json where
  | null
  | bool (b : Bool)
  | num (n : Int)
  | str (s : String)
  | arr (elems : List Json)
  | obj (fields : List (String × Json))

mutual
/-- Decidable equality of JSON values (hand-rolled because of the nested
list occurrences). -/
def Json.decEq : (a b : Json) → Decidable (a = b)
  | .null, .null => .isTrue rfl
  | .bool a, .bool b =>
    if h : a = b then .isTrue (by rw [h]) else .isFalse (fun he => h (by injection he))
  | .num a, .num b =>
    if h : a = b then .isTrue (by rw [h]) else .isFalse (fun he => h (by injection he))
  | .str a, .str b =>
    if h : a = b then .isTrue (by rw [h]) else .isFalse (fun he => h (by injection he))
  | .arr xs, .arr ys =>
    match Json.decEqList xs ys with
    | .isTrue h => .isTrue (by rw [h])
    | .isFalse h => .isFalse (fun he => h (by injection he))
  | .obj xs, .obj ys =>
    match Json.decEqFields xs ys with
    | .isTrue h => .isTrue (by rw [h])
    | .isFalse h => .isFalse (fun he => h (by injection he))
  | .null, .bool _ => .isFalse (fun h => Json.noConfusion h)
  | .null, .num _ => .isFalse (fun h => Json.noConfusion h)
  | .null, .str _ => .isFalse (fun h => Json.noConfusion h)
  | .null, .arr _ => .isFalse (fun h => Json.noConfusion h)
  | .null, .obj _ => .isFalse (fun h => Json.noConfusion h)
  | .bool _, .null => .isFalse (fun h => Json.noConfusion h)
  | .bool _, .num _ => .isFalse (fun h => Json.noConfusion h)
  | .bool _, .str _ => .isFalse (fun h => Json.noConfusion h)
  | .bool _, .arr _ => .isFalse (fun h => Json.noConfusion h)
  | .bool _, .obj _ => .isFalse (fun h => Json.noConfusion h)
  | .num _, .null => .isFalse (fun h => Json.noConfusion h)
  | .num _, .bool _ => .isFalse (fun h => Json.noConfusion h)
  | .num _, .str _ => .isFalse (fun h => Json.noConfusion h)
  | .num _, .arr _ => .isFalse (fun h => Json.noConfusion h)
  | .num _, .obj _ => .isFalse (fun h => Json.noConfusion h)
  | .str _, .null => .isFalse (fun h => Json.noConfusion h)
  | .str _, .bool _ => .isFalse (fun h => Json.noConfusion h)
  | .str _, .num _ => .isFalse (fun h => Json.noConfusion h)
  | .str _, .arr _ => .isFalse (fun h => Json.noConfusion h)
  | .str _, .obj _ => .isFalse (fun h => Json.noConfusion h)
  | .arr _, .null => .isFalse (fun h => Json.noConfusion h)
  | .arr _, .bool _ => .isFalse (fun h => Json.noConfusion h)
  | .arr _, .num _ => .isFalse (fun h => Json.noConfusion h)
  | .arr _, .str _ => .isFalse (fun h => Json.noConfusion h)
  | .arr _, .obj _ => .isFalse (fun h => Json.noConfusion h)
  | .obj _, .null => .isFalse (fun h => Json.noConfusion h)
  | .obj _, .bool _ => .isFalse (fun h => Json.noConfusion h)
  | .obj _, .num _ => .isFalse (fun h => Json.noConfusion h)
  | .obj _, .str _ => .isFalse (fun h => Json.noConfusion h)
  | .obj _, .arr _ => .isFalse (fun h => Json.noConfusion h)

/-- Decidable equality of JSON value lists. -/
def Json.decEqList : (xs ys : List Json) → Decidable (xs = ys)
  | [], [] => .isTrue rfl
  | [], _ :: _ => .isFalse (fun h => List.noConfusion h)
  | _ :: _, [] => .isFalse (fun h => List.noConfusion h)
  | x :: xs, y :: ys =>
    match Json.decEq x y with
    | .isFalse h1 => .isFalse (fun he => h1 (by injection he))
    | .isTrue h1 =>
      match Json.decEqList xs ys with
      | .isTrue h2 => .isTrue (by rw [h1, h2])
      | .isFalse h2 => .isFalse (fun he => h2 (by injection he))

/-- Decidable equality of JSON object field lists. -/
def Json.decEqFields : (xs ys : List (String × Json)) → Decidable (xs = ys)
  | [], [] => .isTrue rfl
  | [], _ :: _ => .isFalse (fun h => List.noConfusion h)
  | _ :: _, [] => .isFalse (fun h => List.noConfusion h)
  | (k, v) :: xs, (l, w) :: ys =>
    if h1 : k = l then
      match Json.decEq v w with
      | .isFalse h2 =>
        .isFalse (fun he => by
          injection he with hp _
          exact h2 (congrArg Prod.snd hp))
      | .isTrue h2 =>
        match Json.decEqFields xs ys with
        | .isTrue h3 => .isTrue (by rw [h1, h2, h3])
        | .isFalse h3 => .isFalse (fun he => h3 (by injection he))
    else
      .isFalse (fun he => by
        injection he with hp _
        exact h1 (congrArg Prod.fst hp))
end

instance : DecidableEq Json := Json.decEq

namespace Json

/-- First-match lookup in an object field list. -/
def getKey : List (String × Json) → String → Option Json
  | [], _ => none
  | (k, v) :: rest, key => if k = key then some v else getKey rest key

/-- `Value::get(key)`: field lookup, `none` on non-objects. -/
def jget : Json → String → Option Json
  | .obj fields, key => getKey fields key
  | _, _ => none

/-- Map `insert` on an object field list: replace the first entry with the
given key in place, or append a fresh entry at the end. -/
def setKey : List (String × Json) → String → Json → List (String × Json)
  | [], key, v => [(key, v)]
  | (k, w) :: rest, key, v =>
    if k = key then (k, v) :: rest else (k, w) :: setKey rest key v

/-- Map `remove` on an object field list. -/
def removeKey (key : String) (fields : List (String × Json)) :
    List (String × Json) :=
  fields.filter (fun e => e.1 ≠ key)

/-- The field list of an object, `[]` for any other value (the
`if !doc.is_object() { *doc = Value::Object(Map::new()) }` step of
`json_patch::merge`). -/
def entriesOf : Json → List (String × Json)
  | .obj fields => fields
  | _ => []

mutual
/-- `json_patch::merge` (RFC 7386 JSON merge patch): a non-object patch
replaces the document wholesale; an object patch is applied key by key to
the document (coerced to an empty object if it is not one), `null` patch
values deleting the key and any other value being merged recursively onto
the existing value (or onto `null` when the key is absent). -/
def merge (doc patch : Json) : Json :=
  match patch with
  | .obj ps => .obj (mergeEntries (entriesOf doc) ps)
  | _ => patch

/-- The key-by-key loop of `json_patch::merge` over the patch's entries. -/
def mergeEntries (ds : List (String × Json)) :
    List (String × Json) → List (String × Json)
  | [] => ds
  | (k, v) :: rest =>
    if v = .null then mergeEntries (removeKey k ds) rest
    else mergeEntries (setKey ds k (merge ((getKey ds k).getD .null) v)) rest
end

end Json

/-- Embedded `HashMap<String, D>`: the per-kind resource maps of the cache,
holding the opaque JSON documents of the typed resource structs. -/
abbrev Smap : Type := List (String × Json)

namespace Smap

/-- `HashMap::get`. -/
def get (m : Smap) (key : String) : Option Json := Json.getKey m key

/-- `HashMap::insert`. -/
def insert (m : Smap) (key : String) (v : Json) : Smap := Json.setKey m key v

/-- `HashMap::len`. -/
def size (m : Smap) : Nat := List.length m

/-- `HashMap::contains_key`. -/
def containsKey (m : Smap) (key : String) : Bool :=
  (get m key).isSome

/-- `map.retain(|id, _| !ids.contains(id))`: drop every entry whose key is
in `ids`. -/
def retainNotIn (m : Smap) (ids : List String) : Smap :=
  List.filter (fun e => ¬ e.1 ∈ ids) m

end Smap

/-- `ResourceType` (src/service/resource.rs): the closed enumeration of
resource kinds. -/
inductive ResourceType where
  | AuthV1 | BehaviorInstance | BehaviorScript | Bridge | BridgeHome
  | Button | CameraMotion | Contact | Device | DevicePower
  | DeviceSoftwareUpdate | Entertainment | EntertainmentConfiguration
  | Geofence | GeofenceClient | Geolocation | Group | HomeKit
  | Light | LightLevel | Matter | MatterFabric | Motion
  | PublicImage | Recipe | RelativeRotary | Room | Scene | SmartScene
  | Tamper | Taurus7455 | Temperature | ZGPConnectivity
  | ZigbeeBridgeConnectivity | ZigbeeConnectivity | ZigbeeDeviceDiscovery
  | Zone
deriving Repr, DecidableEq

/-- `ResourceIdentifier` (src/service/resource.rs): an (id, kind) pair. -/
structure ResourceIdentifier where
  rid : String
  rtype : ResourceType
deriving Repr, DecidableEq

/-- A typed per-kind resource struct (`LightData`, `SceneData`, …): its `id`
field together with its full JSON serialization, the schema itself being
opaque to the cache engine. -/
structure RData where
  id : String
  doc : Json
deriving DecidableEq

/-- `Resource` (src/service/resource.rs): the tagged union over resource
kinds handed to `insert_to_cache` by snapshot fetches and Add events. -/
inductive Resource where
  | AuthV1
  | BehaviorInstance (d : RData)
  | BehaviorScript (d : RData)
  | Bridge (d : RData)
  | BridgeHome (d : RData)
  | Button (d : RData)
  | CameraMotion (d : RData)
  | Contact (d : RData)
  | Device (d : RData)
  | DevicePower (d : RData)
  | DeviceSoftwareUpdate (d : RData)
  | Entertainment (d : RData)
  | EntertainmentConfiguration (d : RData)
  | Geofence
  | GeofenceClient (d : RData)
  | Geolocation (d : RData)
  | Group (d : RData)
  | HomeKit (d : RData)
  | Light (d : RData)
  | LightLevel (d : RData)
  | Matter (d : RData)
  | MatterFabric (d : RData)
  | Motion (d : RData)
  | PublicImage
  | RelativeRotary (d : RData)
  | Room (d : RData)
  | Scene (d : RData)
  | SmartScene (d : RData)
  | Tamper (d : RData)
  | Taurus7455
  | Temperature (d : RData)
  | ZGPConnectivity (d : RData)
  | ZigbeeBridgeConnectivity
  | ZigbeeConnectivity (d : RData)
  | ZigbeeDeviceDiscovery (d : RData)
  | Zone (d : RData)
  | Unknown
deriving DecidableEq

/-- `BridgeCache` (src/service/bridge.rs): one map from id to resource
data per kind, plus the distinguished singleton slot `data` for the owning
bridge resource itself. -/
structure BridgeCache where
  data : Option Json := none
  behavior_scripts : Smap := {}
  behavior_instances : Smap := {}
  buttons : Smap := {}
  contacts : Smap := {}
  devices : Smap := {}
  entertainment_configurations : Smap := {}
  entertainments : Smap := {}
  geofence_clients : Smap := {}
  geolocations : Smap := {}
  groups : Smap := {}
  homes : Smap := {}
  homekits : Smap := {}
  lights : Smap := {}
  light_levels : Smap := {}
  matters : Smap := {}
  matter_fabrics : Smap := {}
  motions : Smap := {}
  motion_cameras : Smap := {}
  power : Smap := {}
  rooms : Smap := {}
  rotaries : Smap := {}
  scenes : Smap := {}
  smart_scenes : Smap := {}
  swu : Smap := {}
  tampers : Smap := {}
  temps : Smap := {}
  zigbee_conns : Smap := {}
  zigbee_dds : Smap := {}
  zgp_conns : Smap := {}
  zones : Smap := {}
deriving DecidableEq

/-- One step of `insert_to_cache`'s loop (src/service/bridge.rs:1704): upsert
the resource into the map of its kind keyed by its id; the bridge resource
fills the singleton slot; unit kinds and `Unknown` are logged and ignored. -/
def insertResource (cache : BridgeCache) : Resource → BridgeCache
  | .BehaviorScript d => { cache with behavior_scripts := cache.behavior_scripts.insert d.id d.doc }
  | .BehaviorInstance d => { cache with behavior_instances := cache.behavior_instances.insert d.id d.doc }
  | .Bridge d => { cache with data := some d.doc }
  | .BridgeHome d => { cache with homes := cache.homes.insert d.id d.doc }
  | .Button d => { cache with buttons := cache.buttons.insert d.id d.doc }
  | .CameraMotion d => { cache with motion_cameras := cache.motion_cameras.insert d.id d.doc }
  | .Contact d => { cache with contacts := cache.contacts.insert d.id d.doc }
  | .Device d => { cache with devices := cache.devices.insert d.id d.doc }
  | .DevicePower d => { cache with power := cache.power.insert d.id d.doc }
  | .DeviceSoftwareUpdate d => { cache with swu := cache.swu.insert d.id d.doc }
  | .EntertainmentConfiguration d => { cache with entertainment_configurations := cache.entertainment_configurations.insert d.id d.doc }
  | .Entertainment d => { cache with entertainments := cache.entertainments.insert d.id d.doc }
  | .GeofenceClient d => { cache with geofence_clients := cache.geofence_clients.insert d.id d.doc }
  | .Geolocation d => { cache with geolocations := cache.geolocations.insert d.id d.doc }
  | .Group d => { cache with groups := cache.groups.insert d.id d.doc }
  | .HomeKit d => { cache with homekits := cache.homekits.insert d.id d.doc }
  | .Light d => { cache with lights := cache.lights.insert d.id d.doc }
  | .LightLevel d => { cache with light_levels := cache.light_levels.insert d.id d.doc }
  | .Matter d => { cache with matters := cache.matters.insert d.id d.doc }
  | .MatterFabric d => { cache with matter_fabrics := cache.matter_fabrics.insert d.id d.doc }
  | .Motion d => { cache with motions := cache.motions.insert d.id d.doc }
  | .Room d => { cache with rooms := cache.rooms.insert d.id d.doc }
  | .RelativeRotary d => { cache with rotaries := cache.rotaries.insert d.id d.doc }
  | .Scene d => { cache with scenes := cache.scenes.insert d.id d.doc }
  | .SmartScene d => { cache with smart_scenes := cache.smart_scenes.insert d.id d.doc }
  | .Tamper d => { cache with tampers := cache.tampers.insert d.id d.doc }
  | .Temperature d => { cache with temps := cache.temps.insert d.id d.doc }
  | .ZigbeeConnectivity d => { cache with zigbee_conns := cache.zigbee_conns.insert d.id d.doc }
  | .ZigbeeDeviceDiscovery d => { cache with zigbee_dds := cache.zigbee_dds.insert d.id d.doc }
  | .ZGPConnectivity d => { cache with zgp_conns := cache.zgp_conns.insert d.id d.doc }
  | .Zone d => { cache with zones := cache.zones.insert d.id d.doc }
  | .Unknown => cache
  | .AuthV1 => cache
  | .Geofence => cache
  | .PublicImage => cache
  | .Taurus7455 => cache
  | .ZigbeeBridgeConnectivity => cache

/-- `insert_to_cache` (src/service/bridge.rs:1704-1810): apply
`insertResource` to each resource of the snapshot/Add batch in order. -/
def insert_to_cache (cache : BridgeCache) (data : List Resource) : BridgeCache :=
  data.foldl insertResource cache

/-- One arm of `delete_from_cache`'s match (src/service/bridge.rs:1823):
for kinds with a backing map, `retain` every id not in the delete set; the
kinds whose arm is `todo!()` in the source (AuthV1, Bridge, Geofence,
PublicImage, Recipe, Taurus7455, ZigbeeBridgeConnectivity) panic with the
`todo!` message. -/
def deleteKind (cache : BridgeCache) (ids : List String) :
    ResourceType → Except String BridgeCache
  | .AuthV1 => .error "not yet implemented"
  | .BehaviorInstance => .ok { cache with behavior_instances := cache.behavior_instances.retainNotIn ids }
  | .BehaviorScript => .ok { cache with behavior_scripts := cache.behavior_scripts.retainNotIn ids }
  | .Bridge => .error "not yet implemented"
  | .BridgeHome => .ok { cache with homes := cache.homes.retainNotIn ids }
  | .Button => .ok { cache with buttons := cache.buttons.retainNotIn ids }
  | .CameraMotion => .ok { cache with motion_cameras := cache.motion_cameras.retainNotIn ids }
  | .Contact => .ok { cache with contacts := cache.contacts.retainNotIn ids }
  | .Device => .ok { cache with devices := cache.devices.retainNotIn ids }
  | .DevicePower => .ok { cache with power := cache.power.retainNotIn ids }
  | .DeviceSoftwareUpdate => .ok { cache with swu := cache.swu.retainNotIn ids }
  | .Entertainment => .ok { cache with entertainments := cache.entertainments.retainNotIn ids }
  | .EntertainmentConfiguration => .ok { cache with entertainment_configurations := cache.entertainment_configurations.retainNotIn ids }
  | .Geofence => .error "not yet implemented"
  | .GeofenceClient => .ok { cache with geofence_clients := cache.geofence_clients.retainNotIn ids }
  | .Geolocation => .ok { cache with geolocations := cache.geolocations.retainNotIn ids }
  | .Group => .ok { cache with groups := cache.groups.retainNotIn ids }
  | .HomeKit => .ok { cache with homekits := cache.homekits.retainNotIn ids }
  | .Light => .ok { cache with lights := cache.lights.retainNotIn ids }
  | .LightLevel => .ok { cache with light_levels := cache.light_levels.retainNotIn ids }
  | .Matter => .ok { cache with matters := cache.matters.retainNotIn ids }
  | .MatterFabric => .ok { cache with matter_fabrics := cache.matter_fabrics.retainNotIn ids }
  | .Motion => .ok { cache with motions := cache.motions.retainNotIn ids }
  | .PublicImage => .error "not yet implemented"
  | .Recipe => .error "not yet implemented"
  | .RelativeRotary => .ok { cache with rotaries := cache.rotaries.retainNotIn ids }
  | .Room => .ok { cache with rooms := cache.rooms.retainNotIn ids }
  | .Scene => .ok { cache with scenes := cache.scenes.retainNotIn ids }
  | .SmartScene => .ok { cache with smart_scenes := cache.smart_scenes.retainNotIn ids }
  | .Tamper => .ok { cache with tampers := cache.tampers.retainNotIn ids }
  | .Taurus7455 => .error "not yet implemented"
  | .Temperature => .ok { cache with temps := cache.temps.retainNotIn ids }
  | .ZGPConnectivity => .ok { cache with zgp_conns := cache.zgp_conns.retainNotIn ids }
  | .ZigbeeBridgeConnectivity => .error "not yet implemented"
  | .ZigbeeConnectivity => .ok { cache with zigbee_conns := cache.zigbee_conns.retainNotIn ids }
  | .ZigbeeDeviceDiscovery => .ok { cache with zigbee_dds := cache.zigbee_dds.retainNotIn ids }
  | .Zone => .ok { cache with zones := cache.zones.retainNotIn ids }

/-- The distinct kinds appearing in a delete batch, in order of first
appearance (the key set of `ids_by_type`; the source iterates a `HashMap`'s
keys in an unspecified order — the per-kind mutations commute because every
arm touches a different field, so only which `todo!()` panics first can
depend on the order). -/
def distinctsRtAux (seen : List ResourceType) : List ResourceType → List ResourceType
  | [] => []
  | rt :: rest =>
    if rt ∈ seen then distinctsRtAux seen rest
    else rt :: distinctsRtAux (rt :: seen) rest

def distinctsRt (l : List ResourceType) : List ResourceType :=
  distinctsRtAux [] l

def rtypesOf (data : List ResourceIdentifier) : List ResourceType :=
  distinctsRt (data.map ResourceIdentifier.rtype)

/-- The set of ids grouped under one kind by `ids_by_type`. -/
def idsFor (data : List ResourceIdentifier) (rt : ResourceType) : List String :=
  (data.filter (fun r => r.rtype = rt)).map ResourceIdentifier.rid

/-- `delete_from_cache` (src/service/bridge.rs:1812-1940): group the
identifiers by kind, then remove each group's ids from that kind's map. -/
def delete_from_cache (cache : BridgeCache) (data : List ResourceIdentifier) :
    Except String BridgeCache :=
  (rtypesOf data).foldlM (fun c rt => deleteKind c (idsFor data rt) rt) cache

/-- `HueEventType` (src/event/mod.rs). -/
inductive HueEventType where
  | Add | Delete | Update | Error
deriving Repr, DecidableEq

/-- `HueEventData` (src/event/mod.rs:22-67): an event payload tagged with
its resource kind.  `AuthV1`, `BehaviorInstance`, `Entertainment`,
`EntertainmentConfiguration` (mod.rs:37-38), `Geofence`, `PublicImage`,
`Taurus7455`, `ZigbeeBridgeConnectivity` and the catch-all `Unknown` are
unit variants carrying no payload: events of those kinds parse with their
body discarded, so the reconciler can never receive a document for them. -/
inductive HueEventData where
  | AuthV1
  | BehaviorInstance
  | Entertainment
  | EntertainmentConfiguration
  | Geofence
  | PublicImage
  | Taurus7455
  | ZigbeeBridgeConnectivity
  | Unknown
  | BehaviorScript (d : Json)
  | Bridge (d : Json)
  | BridgeHome (d : Json)
  | Button (d : Json)
  | CameraMotion (d : Json)
  | Contact (d : Json)
  | Device (d : Json)
  | DevicePower (d : Json)
  | DeviceSoftwareUpdate (d : Json)
  | GeofenceClient (d : Json)
  | Geolocation (d : Json)
  | Group (d : Json)
  | HomeKit (d : Json)
  | Light (d : Json)
  | LightLevel (d : Json)
  | Matter (d : Json)
  | MatterFabric (d : Json)
  | Motion (d : Json)
  | RelativeRotary (d : Json)
  | Room (d : Json)
  | Scene (d : Json)
  | SmartScene (d : Json)
  | Tamper (d : Json)
  | Temperature (d : Json)
  | ZGPConnectivity (d : Json)
  | ZigbeeConnectivity (d : Json)
  | ZigbeeDeviceDiscovery (d : Json)
  | Zone (d : Json)
deriving DecidableEq

/-- `HueEvent` (src/event/mod.rs). -/
structure HueEvent where
  id : String
  creation_time : String
  data : List HueEventData
  etype : HueEventType
deriving DecidableEq

/-- `patch.get("id").expect("no id").as_str().unwrap().to_owned()`
(src/service/bridge.rs:1257 and the Delete branch): extract the `id` field
of a payload as a string, panicking (embedded as `Except.error`) when the
field is missing or not a string. -/
def expectId (patch : Json) : Except String String :=
  match patch.jget "id" with
  | none => .error "no id"
  | some (.str s) => .ok s
  | some _ => .error "as_str unwrap"

/-- `serde_json::from_value::<…Data>(d).unwrap()` on an event payload.  The
per-kind schemas are opaque to the cache engine (spec §1); deserialization
is modelled by its one schema-independent requirement — every `…Data`
struct has a mandatory `id: String` field — so it is embedded as extracting
that id and keeping the document, panicking when no string id is present.
(Real serde fails on at least these documents; this under-approximation of
panics is only ever used on the happy paths of claims.) -/
def fromValue (d : Json) : Except String RData :=
  match d.jget "id" with
  | some (.str s) => .ok ⟨s, d⟩
  | _ => .error "from_value unwrap"

/-- `merge_resource_data` (src/service/bridge.rs:1662-1667): serialize the
stored typed struct to JSON (the stored document itself in this embedding),
apply `json_patch::merge`, and deserialize back. -/
def merge_resource_data (data : Json) (patch : Json) : Json :=
  Json.merge data patch

/-- One event-datum step of the Update branch of `upsert_to_cache`
(src/service/bridge.rs:1253-1317).  For the payload-carrying kinds the
source handles (Button, DevicePower, Group, Light, Scene): extract the
patch's id (panicking when absent), and if the kind's map holds that id,
merge-patch the stored entry, write it back and record the change; when
the id is absent from the map, do nothing.  Everything else — including
the Entertainment and EntertainmentConfiguration kinds, whose event
variants are unit and so can never deliver a patch — falls into the
source's `_ => log::warn!("NOT IMPLEMENTED")` catch-all, which leaves the
cache untouched. -/
def applyUpdateData (st : BridgeCache × List ResourceIdentifier) :
    HueEventData → Except String (BridgeCache × List ResourceIdentifier)
  | .Button patch => do
    let id ← expectId patch
    match st.1.buttons.get id with
    | some data =>
      let data := merge_resource_data data patch
      .ok ({ st.1 with buttons := st.1.buttons.insert id data },
           st.2 ++ [⟨id, .Button⟩])
    | none => .ok st
  | .DevicePower patch => do
    let id ← expectId patch
    match st.1.power.get id with
    | some data =>
      let data := merge_resource_data data patch
      .ok ({ st.1 with power := st.1.power.insert id data },
           st.2 ++ [⟨id, .DevicePower⟩])
    | none => .ok st
  | .Group patch => do
    let id ← expectId patch
    match st.1.groups.get id with
    | some data =>
      let data := merge_resource_data data patch
      .ok ({ st.1 with groups := st.1.groups.insert id data },
           st.2 ++ [⟨id, .Group⟩])
    | none => .ok st
  | .Light patch => do
    let id ← expectId patch
    match st.1.lights.get id with
    | some data =>
      let data := merge_resource_data data patch
      .ok ({ st.1 with lights := st.1.lights.insert id data },
           st.2 ++ [⟨id, .Light⟩])
    | none => .ok st
  | .Scene patch => do
    let id ← expectId patch
    match st.1.scenes.get id with
    | some data =>
      let data := merge_resource_data data patch
      .ok ({ st.1 with scenes := st.1.scenes.insert id data },
           st.2 ++ [⟨id, .Scene⟩])
    | none => .ok st
  | _ => .ok st

/-- The Add branch's `filter_map` body (src/service/bridge.rs:1319-1424):
unit kinds yield nothing; payload kinds deserialize into their `Resource`
variant, panicking on failure (`from_value(d).unwrap()`). -/
def eventDataToResource : HueEventData → Except String (Option Resource)
  | .AuthV1 | .BehaviorInstance | .Entertainment | .EntertainmentConfiguration
  | .Geofence | .PublicImage | .Taurus7455
  | .ZigbeeBridgeConnectivity | .Unknown => .ok none
  | .BehaviorScript d => do .ok (some (.BehaviorScript (← fromValue d)))
  | .Bridge d => do .ok (some (.Bridge (← fromValue d)))
  | .BridgeHome d => do .ok (some (.BridgeHome (← fromValue d)))
  | .Button d => do .ok (some (.Button (← fromValue d)))
  | .CameraMotion d => do .ok (some (.CameraMotion (← fromValue d)))
  | .Contact d => do .ok (some (.Contact (← fromValue d)))
  | .Device d => do .ok (some (.Device (← fromValue d)))
  | .DevicePower d => do .ok (some (.DevicePower (← fromValue d)))
  | .DeviceSoftwareUpdate d => do .ok (some (.DeviceSoftwareUpdate (← fromValue d)))
  | .GeofenceClient d => do .ok (some (.GeofenceClient (← fromValue d)))
  | .Geolocation d => do .ok (some (.Geolocation (← fromValue d)))
  | .Group d => do .ok (some (.Group (← fromValue d)))
  | .HomeKit d => do .ok (some (.HomeKit (← fromValue d)))
  | .Light d => do .ok (some (.Light (← fromValue d)))
  | .LightLevel d => do .ok (some (.LightLevel (← fromValue d)))
  | .Matter d => do .ok (some (.Matter (← fromValue d)))
  | .MatterFabric d => do .ok (some (.MatterFabric (← fromValue d)))
  | .Motion d => do .ok (some (.Motion (← fromValue d)))
  | .RelativeRotary d => do .ok (some (.RelativeRotary (← fromValue d)))
  | .Room d => do .ok (some (.Room (← fromValue d)))
  | .Scene d => do .ok (some (.Scene (← fromValue d)))
  | .SmartScene d => do .ok (some (.SmartScene (← fromValue d)))
  | .Tamper d => do .ok (some (.Tamper (← fromValue d)))
  | .Temperature d => do .ok (some (.Temperature (← fromValue d)))
  | .ZGPConnectivity d => do .ok (some (.ZGPConnectivity (← fromValue d)))
  | .ZigbeeConnectivity d => do .ok (some (.ZigbeeConnectivity (← fromValue d)))
  | .ZigbeeDeviceDiscovery d => do .ok (some (.ZigbeeDeviceDiscovery (← fromValue d)))
  | .Zone d => do .ok (some (.Zone (← fromValue d)))

/-- The Delete branch's `filter_map` body (src/service/bridge.rs:1428-1650):
unit kinds yield nothing; payload kinds extract the id (panicking when
absent) and pair it with their declared `ResourceType`. -/
def deleteIdentOf : HueEventData → Except String (Option ResourceIdentifier)
  | .AuthV1 | .BehaviorInstance | .Entertainment | .EntertainmentConfiguration
  | .Geofence | .PublicImage | .Taurus7455
  | .ZigbeeBridgeConnectivity | .Unknown => .ok none
  | .BehaviorScript d => do .ok (some ⟨← expectId d, .BehaviorScript⟩)
  | .Bridge d => do .ok (some ⟨← expectId d, .Bridge⟩)
  | .BridgeHome d => do .ok (some ⟨← expectId d, .BridgeHome⟩)
  | .Button d => do .ok (some ⟨← expectId d, .Button⟩)
  | .CameraMotion d => do .ok (some ⟨← expectId d, .CameraMotion⟩)
  | .Contact d => do .ok (some ⟨← expectId d, .Contact⟩)
  | .Device d => do .ok (some ⟨← expectId d, .Device⟩)
  | .DevicePower d => do .ok (some ⟨← expectId d, .DevicePower⟩)
  | .DeviceSoftwareUpdate d => do .ok (some ⟨← expectId d, .DeviceSoftwareUpdate⟩)
  | .GeofenceClient d => do .ok (some ⟨← expectId d, .GeofenceClient⟩)
  | .Geolocation d => do .ok (some ⟨← expectId d, .Geolocation⟩)
  | .Group d => do .ok (some ⟨← expectId d, .Group⟩)
  | .HomeKit d => do .ok (some ⟨← expectId d, .HomeKit⟩)
  | .Light d => do .ok (some ⟨← expectId d, .Light⟩)
  | .LightLevel d => do .ok (some ⟨← expectId d, .LightLevel⟩)
  | .Matter d => do .ok (some ⟨← expectId d, .Matter⟩)
  | .MatterFabric d => do .ok (some ⟨← expectId d, .MatterFabric⟩)
  | .Motion d => do .ok (some ⟨← expectId d, .Motion⟩)
  | .RelativeRotary d => do .ok (some ⟨← expectId d, .RelativeRotary⟩)
  | .Room d => do .ok (some ⟨← expectId d, .Room⟩)
  | .Scene d => do .ok (some ⟨← expectId d, .Scene⟩)
  | .SmartScene d => do .ok (some ⟨← expectId d, .SmartScene⟩)
  | .Tamper d => do .ok (some ⟨← expectId d, .Tamper⟩)
  | .Temperature d => do .ok (some ⟨← expectId d, .Temperature⟩)
  | .ZGPConnectivity d => do .ok (some ⟨← expectId d, .ZGPConnectivity⟩)
  | .ZigbeeConnectivity d => do .ok (some ⟨← expectId d, .ZigbeeConnectivity⟩)
  | .ZigbeeDeviceDiscovery d => do .ok (some ⟨← expectId d, .ZigbeeDeviceDiscovery⟩)
  | .Zone d => do .ok (some ⟨← expectId d, .Zone⟩)

/-- One event of `upsert_to_cache`'s loop (src/service/bridge.rs:1251-1657),
dispatching on the event type. -/
def applyEvent (st : BridgeCache × List ResourceIdentifier) (event : HueEvent) :
    Except String (BridgeCache × List ResourceIdentifier) :=
  match event.etype with
  | .Update => event.data.foldlM applyUpdateData st
  | .Add => do
    let opts ← event.data.mapM eventDataToResource
    .ok (insert_to_cache st.1 (opts.filterMap id), st.2)
  | .Delete => do
    let opts ← event.data.mapM deleteIdentOf
    let c ← delete_from_cache st.1 (opts.filterMap id)
    .ok (c, st.2)
  | .Error => .ok st

/-- `upsert_to_cache` (src/service/bridge.rs:1242-1660): process a batch of
events in arrival order, returning the mutated cache and the set of changed
resource identifiers (recorded only by the Update branch, as in the
source). -/
def upsert_to_cache (cache : BridgeCache) (data : List HueEvent) :
    Except String (BridgeCache × List ResourceIdentifier) :=
  data.foldlM applyEvent (cache, [])

namespace Bridge

/-- `Bridge::n_lights` (src/service/bridge.rs:736-738): the length of the
`lights` map. -/
def n_lights (c : BridgeCache) : Nat := c.lights.size

/-- `Bridge::n_behavior_instances` (src/service/bridge.rs:280-286).  The
source body reads `behavior_scripts.len()`, not `behavior_instances.len()`;
the embedding reproduces that body verbatim. -/
def n_behavior_instances (c : BridgeCache) : Nat := c.behavior_scripts.size

/-- `Bridge::n_scenes` (src/service/bridge.rs). -/
def n_scenes (c : BridgeCache) : Nat := c.scenes.size

/-- `Bridge::light(id)` (src/service/bridge.rs): point read of a cached
light's data. -/
def light (c : BridgeCache) (id : String) : Option Json := c.lights.get id

/-- `Bridge::scene(id)` (src/service/bridge.rs): point read of a cached
scene's data. -/
def scene (c : BridgeCache) (id : String) : Option Json := c.scenes.get id

/-- `Bridge::create_scene` (src/service/bridge.rs:855-867): after the
transport's POST is acknowledged, the created scene is re-fetched by id
(`data`, a transport input in this embedding) and eagerly inserted into the
`scenes` map; the fetched data is also returned to the caller. -/
def create_scene (c : BridgeCache) (data : RData) : BridgeCache × RData :=
  ({ c with scenes := c.scenes.insert data.id data.doc }, data)

/-- `Bridge::delete_scene` (src/service/bridge.rs:871-878): after the
transport's DELETE is acknowledged with a list of affected identifiers
(`res`, a transport input in this embedding), those identifiers are eagerly
removed from the cache via `delete_from_cache`, and returned. -/
def delete_scene (c : BridgeCache) (res : List ResourceIdentifier) :
    Except String (BridgeCache × List ResourceIdentifier) := do
  let c' ← delete_from_cache c res
  .ok (c', res)

end Bridge

/-- `None`-to-`null` serialization of an optional string field. -/
def optStr : Option String → Json
  | none => .null
  | some s => .str s

/-- `None`-to-`null` serialization of an optional numeric field. -/
def optNum : Option Int → Json
  | none => .null
  | some n => .num n

/-- `LightCommand` (src/command/mod.rs:308-377).  Unit enum payloads
(`AlertEffectType`, `EffectType`, …) are embedded by the snake_case string
serde serializes them to; `f32`/`u16`/`usize` fields by their exact numeric
value (no arithmetic is ever performed on them); the opaque nested structs
of `PowerUp`/`Signaling` by the JSON documents they serialize to. -/
inductive LightCommand where
  | Alert (effect : String)
  | Color (x y : Int)
  | ColorTemp (mirek : Int)
  | ColorTempDelta (action : String) (mirek_delta : Option Int)
  | Dim (pct : Int)
  | DimDelta (action : Option String) (brightness_delta : Option Int)
  | Dynamics (duration : Option Int) (speed : Option Int)
  | Gradient (points : List (Int × Int)) (mode : Option String)
  | Effect (effect : String)
  | Identify
  | Metadata (name : Option String) (archetype : Option String)
  | On (b : Bool)
  | PowerUp (preset : String) (onState dimming color : Json)
  | Signaling (signal : String) (duration : Int) (colors : Json)
  | TimedEffect (effect : String) (duration : Option Int)
deriving DecidableEq

/-- `impl Serialize for LightCommand` (src/command/mod.rs:519-617): every
command serializes to a JSON object with a single top-level entry.  Fields
of the inner `json!` literals are listed in key-sorted order because
`serde_json`'s default map is a `BTreeMap`. -/
def LightCommand.serialize : LightCommand → Json
  | .Alert effect =>
    .obj [("alert", .obj [("action", .str effect)])]
  | .Color x y =>
    .obj [("color", .obj [("xy", .obj [("x", .num x), ("y", .num y)])])]
  | .ColorTemp mirek =>
    .obj [("color_temperature", .obj [("mirek", .num mirek)])]
  | .ColorTempDelta action mirek_delta =>
    .obj [("color_temperature_delta",
      .obj [("action", .str action), ("mirek_delta", optNum mirek_delta)])]
  | .Dim pct =>
    .obj [("dimming", .obj [("brightness", .num pct)])]
  | .DimDelta action brightness_delta =>
    .obj [("dimming_delta",
      .obj [("action", optStr action), ("brightness_delta", optNum brightness_delta)])]
  | .Dynamics duration speed =>
    .obj [("dynamics", .obj [("duration", optNum duration), ("speed", optNum speed)])]
  | .Effect effect =>
    .obj [("effects", .obj [("effect", .str effect)])]
  | .Gradient points mode =>
    .obj [("gradient",
      .obj [("mode", optStr mode),
            ("points", .arr (points.map (fun p =>
              .obj [("xy", .obj [("x", .num p.1), ("y", .num p.2)])])))])]
  | .Identify =>
    .obj [("identify", .obj [("action", .str "identify")])]
  | .Metadata name archetype =>
    .obj [("metadata", .obj [("archetype", optStr archetype), ("name", optStr name)])]
  | .On b =>
    .obj [("on", .obj [("on", .bool b)])]
  | .PowerUp preset onState dimming color =>
    .obj [("powerup",
      .obj [("color", color), ("dimming", dimming), ("on", onState), ("preset", .str preset)])]
  | .Signaling signal duration colors =>
    .obj [("signaling",
      .obj [("colors", colors), ("duration", .num duration), ("signal", .str signal)])]
  | .TimedEffect effect duration =>
    .obj [("timed_effects", .obj [("duration", optNum duration), ("effect", .str effect)])]

/-- `merge_commands` (src/command/mod.rs:12-18): serialize each command
independently and fold `json_patch::merge` over the fragments left to
right, starting from `json!({})`. -/
def merge_commands (commands : List LightCommand) : Json :=
  commands.foldl (fun m cmd => Json.merge m cmd.serialize) (Json.obj [])

/-- The one `PUT /resource/light/{id}` request `Light::send` hands to the
transport. -/
structure PutRequest where
  id : String
  body : Json
deriving DecidableEq

/-- `Light::send` (src/service/light.rs:62-68): merge the commands into a
single payload and issue exactly one PUT to the transport.  The source body
(`merge_commands` + `api.put_light`) contains no cache access of any kind;
in this state-passing embedding the cache is threaded through the call. -/
def Light.send (cache : BridgeCache) (lightId : String)
    (commands : List LightCommand) : PutRequest × BridgeCache :=
  (⟨lightId, merge_commands commands⟩, cache)

/-! ## Specification-side notions

The definitions below do not embed source code; they name concepts the
claims quantify over (which map backs which kind, which kinds the delete
match supports) so that the theorems can range over resource kinds. -/

/-- The map of the Cache Store backing a resource kind, read off the match
arms of `insert_to_cache`/`delete_from_cache`; `[]` for the kinds with no
backing map (whose delete arm is `todo!()` and whose singleton slot, for
`Bridge`, is `BridgeCache.data`). -/
def mapOf (c : BridgeCache) : ResourceType → Smap
  | .AuthV1 => {}
  | .BehaviorInstance => c.behavior_instances
  | .BehaviorScript => c.behavior_scripts
  | .Bridge => {}
  | .BridgeHome => c.homes
  | .Button => c.buttons
  | .CameraMotion => c.motion_cameras
  | .Contact => c.contacts
  | .Device => c.devices
  | .DevicePower => c.power
  | .DeviceSoftwareUpdate => c.swu
  | .Entertainment => c.entertainments
  | .EntertainmentConfiguration => c.entertainment_configurations
  | .Geofence => {}
  | .GeofenceClient => c.geofence_clients
  | .Geolocation => c.geolocations
  | .Group => c.groups
  | .HomeKit => c.homekits
  | .Light => c.lights
  | .LightLevel => c.light_levels
  | .Matter => c.matters
  | .MatterFabric => c.matter_fabrics
  | .Motion => c.motions
  | .PublicImage => {}
  | .Recipe => {}
  | .RelativeRotary => c.rotaries
  | .Room => c.rooms
  | .Scene => c.scenes
  | .SmartScene => c.smart_scenes
  | .Tamper => c.tampers
  | .Taurus7455 => {}
  | .Temperature => c.temps
  | .ZGPConnectivity => c.zgp_conns
  | .ZigbeeBridgeConnectivity => {}
  | .ZigbeeConnectivity => c.zigbee_conns
  | .ZigbeeDeviceDiscovery => c.zigbee_dds
  | .Zone => c.zones

/-- The kinds whose `delete_from_cache` arm performs a map `retain`; the
remaining seven (AuthV1, Bridge, Geofence, PublicImage, Recipe, Taurus7455,
ZigbeeBridgeConnectivity) have `todo!()` arms. -/
def hasDeleteSupport : ResourceType → Bool
  | .AuthV1 => false
  | .Bridge => false
  | .Geofence => false
  | .PublicImage => false
  | .Recipe => false
  | .Taurus7455 => false
  | .ZigbeeBridgeConnectivity => false
  | _ => true

/-- The kinds the Update branch of `upsert_to_cache` handles, with the
patch they carry; `none` for every payload that falls into the source's
`_ => log::warn!("NOT IMPLEMENTED")` catch-all or carries no payload
(which includes the unit Entertainment and EntertainmentConfiguration
event variants). -/
def updTarget : HueEventData → Option (ResourceType × Json)
  | .Button p => some (.Button, p)
  | .DevicePower p => some (.DevicePower, p)
  | .Group p => some (.Group, p)
  | .Light p => some (.Light, p)
  | .Scene p => some (.Scene, p)
  | _ => none

/-- One per-kind map never shrinks: every key stays present and the entry
count does not decrease. -/
def SmapLe (m m' : Smap) : Prop :=
  (∀ k, m.containsKey k = true → m'.containsKey k = true) ∧ m.size ≤ m'.size

/-- Snapshot application is per-entry additive/replacing: the singleton
bridge slot stays filled once filled, and for every resource kind each
present key stays present and the count does not decrease. -/
def cacheLe (c c' : BridgeCache) : Prop :=
  (c.data.isSome = true → c'.data.isSome = true) ∧
  ∀ rt, SmapLe (mapOf c rt) (mapOf c' rt)

/-! ## Lookup lemmas for the map embedding -/

namespace Json

theorem getKey_setKey (ds : List (String × Json)) (key : String) (v : Json)
    (k : String) :
    getKey (setKey ds key v) k = if key = k then some v else getKey ds k := by
  induction ds with
  | nil => simp [setKey, getKey]
  | cons hd rest ih =>
    obtain ⟨a, b⟩ := hd
    simp only [setKey]
    by_cases hak : a = key
    · subst hak
      by_cases hk : a = k <;> simp [getKey, hk]
    · by_cases hk : a = k
      · subst hk
        have hne : ¬ key = a := fun h => hak h.symm
        simp [getKey, hne, hak]
      · simp [getKey, hk, ih, hak]

theorem getKey_removeKey (key : String) (ds : List (String × Json))
    (k : String) :
    getKey (removeKey key ds) k = if key = k then none else getKey ds k := by
  induction ds with
  | nil => simp [removeKey, getKey]
  | cons hd rest ih =>
    obtain ⟨a, b⟩ := hd
    by_cases hak : a = key
    · subst hak
      have hdrop : removeKey a ((a, b) :: rest) = removeKey a rest := by
        simp [removeKey, List.filter_cons]
      rw [hdrop, ih]
      by_cases hk : a = k
      · simp [hk]
      · simp [hk, getKey]
    · have hkeep : removeKey key ((a, b) :: rest) = (a, b) :: removeKey key rest := by
        simp [removeKey, List.filter_cons, hak]
      rw [hkeep]
      by_cases hk : a = k
      · subst hk
        have hne : ¬ key = a := fun h => hak h.symm
        simp [getKey, hne]
      · simp [getKey, hk, ih]

theorem getKey_eq_none_of_not_mem (ds : List (String × Json)) (k : String)
    (h : k ∉ ds.map Prod.fst) : getKey ds k = none := by
  induction ds with
  | nil => rfl
  | cons hd rest ih =>
    simp only [List.map_cons, List.mem_cons, not_or] at h
    have hne : hd.1 ≠ k := fun he => h.1 he.symm
    obtain ⟨a, b⟩ := hd
    simp only [getKey, if_neg hne]
    exact ih h.2

end Json

namespace Smap

theorem get_insert (m : Smap) (key : String) (v : Json) (k : String) :
    (m.insert key v).get k = if key = k then some v else m.get k :=
  Json.getKey_setKey m key v k

theorem size_le_size_insert (m : Smap) (key : String) (v : Json) :
    m.size ≤ (m.insert key v).size := by
  induction m with
  | nil => simp [Smap.size, Smap.insert, Json.setKey]
  | cons hd rest ih =>
    obtain ⟨a, b⟩ := hd
    by_cases hak : a = key <;>
      simp_all [Smap.size, Smap.insert, Json.setKey, Nat.succ_le_succ]

theorem containsKey_insert (m : Smap) (key : String) (v : Json) (k : String)
    (h : m.containsKey k = true) : (m.insert key v).containsKey k = true := by
  simp only [Smap.containsKey, Smap.get] at h ⊢
  rw [show Json.getKey (m.insert key v) k = Json.getKey (Json.setKey m key v) k from rfl,
    Json.getKey_setKey]
  by_cases hk : key = k <;> simp [hk, h]

theorem get_retainNotIn_of_mem (m : Smap) (ids : List String) (k : String)
    (h : k ∈ ids) : (m.retainNotIn ids).get k = none := by
  induction m with
  | nil => rfl
  | cons hd rest ih =>
    by_cases hmem : hd.1 ∈ ids
    · have hdrop : Smap.retainNotIn (hd :: rest) ids = Smap.retainNotIn rest ids := by
        simp [Smap.retainNotIn, List.filter_cons, hmem]
      rw [hdrop]
      exact ih
    · have hne : hd.1 ≠ k := fun he => hmem (he ▸ h)
      have hkeep : Smap.retainNotIn (hd :: rest) ids = hd :: Smap.retainNotIn rest ids := by
        simp [Smap.retainNotIn, List.filter_cons, hmem]
      rw [hkeep]
      obtain ⟨a, b⟩ := hd
      simp only [Smap.get, Json.getKey, if_neg hne] at ih ⊢
      exact ih

theorem get_retainNotIn_of_not_mem (m : Smap) (ids : List String) (k : String)
    (h : k ∉ ids) : (m.retainNotIn ids).get k = m.get k := by
  induction m with
  | nil => rfl
  | cons hd rest ih =>
    by_cases hmem : hd.1 ∈ ids
    · have hne : hd.1 ≠ k := fun he => h (he ▸ hmem)
      have hdrop : Smap.retainNotIn (hd :: rest) ids = Smap.retainNotIn rest ids := by
        simp [Smap.retainNotIn, List.filter_cons, hmem]
      rw [hdrop, ih]
      obtain ⟨a, b⟩ := hd
      simp [Smap.get, Json.getKey, if_neg hne]
    · have hkeep : Smap.retainNotIn (hd :: rest) ids = hd :: Smap.retainNotIn rest ids := by
        simp [Smap.retainNotIn, List.filter_cons, hmem]
      rw [hkeep]
      obtain ⟨a, b⟩ := hd
      by_cases hk : a = k
      · simp [Smap.get, Json.getKey, hk]
      · simp only [Smap.get, Json.getKey, if_neg hk] at ih ⊢
        exact ih

end Smap

/-! ## Characterization of `json_patch::merge` on object lookups -/

namespace Json

/-- What one key of a merged object holds: keys absent from the patch keep
the document's value; a `null` patch value deletes the key; any other patch
value is merged recursively onto the document's value (`null` when the key
is absent from the document).  The patch's keys must be duplicate-free, as
serde maps are. -/
theorem getKey_mergeEntries :
    ∀ (ps : List (String × Json)), (ps.map Prod.fst).Nodup →
    ∀ (ds : List (String × Json)) (k : String),
    getKey (mergeEntries ds ps) k =
      match getKey ps k with
      | none => getKey ds k
      | some v =>
        if v = .null then none
        else some (merge ((getKey ds k).getD .null) v) := by
  intro ps
  induction ps with
  | nil =>
    intro _ ds k
    simp [mergeEntries, getKey]
  | cons hd rest ih =>
    intro hnd ds k
    obtain ⟨k₁, v₁⟩ := hd
    simp only [List.map_cons, List.nodup_cons] at hnd
    obtain ⟨hk₁, hrest⟩ := hnd
    by_cases hv : v₁ = .null
    · subst hv
      have hstep : mergeEntries ds ((k₁, Json.null) :: rest) =
          mergeEntries (removeKey k₁ ds) rest := by
        simp [mergeEntries]
      rw [hstep, ih hrest]
      by_cases hk : k₁ = k
      · subst hk
        have hnone : getKey rest k₁ = none :=
          getKey_eq_none_of_not_mem rest k₁ hk₁
        have hcons : getKey ((k₁, Json.null) :: rest) k₁ = some .null := by
          simp [getKey]
        rw [hnone, hcons]
        simp [getKey_removeKey]
      · have hcons : getKey ((k₁, Json.null) :: rest) k = getKey rest k := by
          simp [getKey, hk]
        have hrm : getKey (removeKey k₁ ds) k = getKey ds k := by
          rw [getKey_removeKey]
          simp [hk]
        rw [hcons]
        simp only [hrm]
    · have hstep : mergeEntries ds ((k₁, v₁) :: rest) =
          mergeEntries (setKey ds k₁ (merge ((getKey ds k₁).getD .null) v₁)) rest := by
        simp [mergeEntries, hv]
      rw [hstep, ih hrest]
      by_cases hk : k₁ = k
      · subst hk
        have hnone : getKey rest k₁ = none :=
          getKey_eq_none_of_not_mem rest k₁ hk₁
        have hcons : getKey ((k₁, v₁) :: rest) k₁ = some v₁ := by
          simp [getKey]
        rw [hnone, hcons]
        simp [getKey_setKey, hv]
      · have hcons : getKey ((k₁, v₁) :: rest) k = getKey rest k := by
          simp [getKey, hk]
        have hset : getKey (setKey ds k₁ (merge ((getKey ds k₁).getD .null) v₁)) k =
            getKey ds k := by
          rw [getKey_setKey]
          simp [hk]
        rw [hcons]
        simp only [hset]

end Json

/-! ## Monotonicity of snapshot application -/

theorem SmapLe.refl (m : Smap) : SmapLe m m :=
  ⟨fun _ h => h, Nat.le_refl _⟩

theorem SmapLe.trans {a b c : Smap} (h1 : SmapLe a b) (h2 : SmapLe b c) :
    SmapLe a c :=
  ⟨fun k hk => h2.1 k (h1.1 k hk), Nat.le_trans h1.2 h2.2⟩

theorem SmapLe.insert (m : Smap) (key : String) (v : Json) :
    SmapLe m (m.insert key v) :=
  ⟨fun k hk => Smap.containsKey_insert m key v k hk,
   Smap.size_le_size_insert m key v⟩

theorem cacheLe_refl (c : BridgeCache) : cacheLe c c :=
  ⟨fun h => h, fun _ => SmapLe.refl _⟩

theorem cacheLe_trans {a b c : BridgeCache} (h1 : cacheLe a b)
    (h2 : cacheLe b c) : cacheLe a c :=
  ⟨fun h => h2.1 (h1.1 h), fun rt => SmapLe.trans (h1.2 rt) (h2.2 rt)⟩

set_option maxHeartbeats 2000000 in
theorem insertResource_cacheLe (c : BridgeCache) (r : Resource) :
    cacheLe c (insertResource c r) := by
  cases r
  case Bridge d =>
    exact ⟨fun _ => rfl, fun rt => by cases rt <;> exact SmapLe.refl _⟩
  all_goals
    exact ⟨fun h => h, fun rt => by
      cases rt <;>
        first
          | exact SmapLe.refl _
          | exact SmapLe.insert _ _ _⟩

theorem insert_to_cache_cacheLe :
    ∀ (rs : List Resource) (c : BridgeCache), cacheLe c (insert_to_cache c rs)
  | [], c => cacheLe_refl c
  | r :: rest, c =>
    cacheLe_trans (insertResource_cacheLe c r)
      (insert_to_cache_cacheLe rest (insertResource c r))

/-! ## Helper lemmas for evaluating the reconciler -/

theorem delete_from_cache_singleton (c : BridgeCache) (rid : String)
    (rt : ResourceType) :
    delete_from_cache c [⟨rid, rt⟩] = deleteKind c [rid] rt := by
  have h1 : rtypesOf [⟨rid, rt⟩] = [rt] := rfl
  have h2 : idsFor [⟨rid, rt⟩] rt = [rid] := by
    simp [idsFor]
  rw [delete_from_cache, h1]
  simp only [List.foldlM_cons, List.foldlM_nil, h2]
  exact bind_pure _

/-! ## Claim theorems -/

/-- C2 (code bug): processing a malformed single event DOES crash the
event-stream synchronizer, contrary to the spec: an Update event whose
Light payload lacks an `id` field panics at `patch.get("id").expect("no
id")` (src/service/bridge.rs:1298), and an Add event whose Light payload
fails to deserialize panics at `serde_json::from_value(d).unwrap()`
(src/service/bridge.rs:1379); both are embedded as `Except.error`. -/
theorem update_missing_id_panics :
    upsert_to_cache {}
      [⟨"event-1", "2023-01-01T00:00:00Z", [HueEventData.Light (Json.obj [])],
        HueEventType.Update⟩] = .error "no id" ∧
    upsert_to_cache {}
      [⟨"event-2", "2023-01-01T00:00:00Z", [HueEventData.Light (Json.obj [])],
        HueEventType.Add⟩] = .error "from_value unwrap" :=
  ⟨rfl, rfl⟩

/-- C3 (counterexample): a Delete for the singleton bridge resource does
NOT clear the singleton slot — it hits the `todo!()` arm of
`delete_from_cache` (src/service/bridge.rs:1833-1836) and panics, so
processing the Delete does not complete. -/
theorem delete_bridge_hits_todo :
    delete_from_cache { data := some (Json.obj []) }
      [⟨"bridge-1", ResourceType.Bridge⟩] = .error "not yet implemented" := rfl

/-- C3 (amended): identifiers whose kind has no structural deletion support
(AuthV1, Bridge, Geofence, PublicImage, Recipe, Taurus7455,
ZigbeeBridgeConnectivity) make `delete_from_cache` panic in the `todo!()`
arm — no singleton-slot clearing and no diagnostic — while identifiers of
every map-backed kind are processed to completion without panicking. -/
theorem delete_unsupported_kind_panics (c : BridgeCache) (rid : String)
    (rt : ResourceType) :
    (hasDeleteSupport rt = false →
      delete_from_cache c [⟨rid, rt⟩] = .error "not yet implemented") ∧
    (hasDeleteSupport rt = true →
      ∃ c', delete_from_cache c [⟨rid, rt⟩] = .ok c') := by
  refine ⟨fun h => ?_, fun h => ?_⟩ <;> rw [delete_from_cache_singleton] <;>
    cases rt <;>
      first
        | rfl
        | exact ⟨_, rfl⟩
        | simp [hasDeleteSupport] at h

/-- Witness for `delete_unsupported_kind_panics`: the Bridge kind panics,
the Light kind completes. -/
theorem delete_unsupported_kind_panics_witness :
    (delete_from_cache {} [⟨"x", ResourceType.Bridge⟩] =
      .error "not yet implemented") ∧
    ∃ c', delete_from_cache {} [⟨"y", ResourceType.Light⟩] = .ok c' :=
  ⟨(delete_unsupported_kind_panics {} "x" ResourceType.Bridge).1 rfl,
   (delete_unsupported_kind_panics {} "y" ResourceType.Light).2 rfl⟩

/-- C4: full-snapshot application is per-entry additive/replacing only —
for every resource kind, every entry present before `insert_to_cache` is
still present afterwards and the per-kind count never decreases
(`cacheLe`); ingesting a snapshot of 5 lights and then a snapshot holding
only 4 of them leaves the light count at 5. -/
theorem snapshot_never_evicts :
    (∀ (c : BridgeCache) (rs : List Resource), cacheLe c (insert_to_cache c rs)) ∧
    Bridge.n_lights (insert_to_cache (insert_to_cache {}
        [.Light ⟨"l1", .null⟩, .Light ⟨"l2", .null⟩, .Light ⟨"l3", .null⟩,
         .Light ⟨"l4", .null⟩, .Light ⟨"l5", .null⟩])
        [.Light ⟨"l1", .null⟩, .Light ⟨"l2", .null⟩, .Light ⟨"l3", .null⟩,
         .Light ⟨"l4", .null⟩]) = 5 :=
  ⟨fun c rs => insert_to_cache_cacheLe rs c, rfl⟩

/-- C5 (code bug): `Bridge::n_behavior_instances` returns the size of the
`behavior_scripts` map, not the `behavior_instances` map: on a cache with
one behavior script and no behavior instances it returns 1 while the
behavior-instance map holds 0 entries.  (`Bridge::n_lights`, by contrast,
counts its own map, as the claim states.) -/
theorem n_behavior_instances_miscounts :
    Bridge.n_behavior_instances { behavior_scripts := [("script-1", Json.null)] } = 1 ∧
    ({ behavior_scripts := [("script-1", Json.null)] } : BridgeCache).behavior_instances.size = 0 ∧
    (∀ c : BridgeCache, Bridge.n_lights c = c.lights.size) :=
  ⟨rfl, rfl, fun _ => rfl⟩

/-- C8: `Light::send` only issues the PUT and never mutates the Cache
Store — the cache after `send` is the cache before it, so reading the same
light immediately after a send (with no intervening refresh, poll tick or
event) returns the pre-write cached value. -/
theorem send_leaves_cache_unchanged (c : BridgeCache) (lightId : String)
    (cmds : List LightCommand) :
    (Light.send c lightId cmds).2 = c ∧
    Bridge.light (Light.send c lightId cmds).2 lightId = Bridge.light c lightId :=
  ⟨rfl, rfl⟩

/-- C9: the body of the single PUT issued by one `send()` call is the
left-to-right `json_patch::merge` of the independently serialized command
fragments; in particular `[Dim 80, On true]` produces the body
`{"dimming":{"brightness":80},"on":{"on":true}}`, and a later command
overrides an earlier one on conflicting fields. -/
theorem send_body_merges_commands (c : BridgeCache) (lightId : String)
    (cmds : List LightCommand) :
    (Light.send c lightId cmds).1.body = merge_commands cmds ∧
    merge_commands cmds =
      cmds.foldl (fun m cmd => Json.merge m cmd.serialize) (Json.obj []) ∧
    (Light.send c "l1" [LightCommand.Dim 80, LightCommand.On true]).1.body =
      Json.obj [("dimming", Json.obj [("brightness", Json.num 80)]),
                ("on", Json.obj [("on", Json.bool true)])] ∧
    merge_commands [LightCommand.On false, LightCommand.On true] =
      Json.obj [("on", Json.obj [("on", Json.bool true)])] :=
  ⟨rfl, rfl, rfl, rfl⟩

/-- C7: a Delete removes its id only from the map of its declared kind:
for any identifier of a deletion-supported kind, the kind's own map loses
exactly that id, every other kind's map is untouched, and the singleton
bridge slot is untouched — so an entry of a different kind sharing the
same id survives. -/
theorem delete_removes_only_declared_kind (c : BridgeCache) (rid : String)
    (rt : ResourceType) (h : hasDeleteSupport rt = true) :
    ∃ c', delete_from_cache c [⟨rid, rt⟩] = .ok c' ∧
      (∀ k, (mapOf c' rt).get k =
        if k = rid then none else (mapOf c rt).get k) ∧
      (∀ rt', rt' ≠ rt → mapOf c' rt' = mapOf c rt') ∧
      c'.data = c.data := by
  rw [delete_from_cache_singleton]
  cases rt <;>
    first
      | (refine ⟨_, rfl, fun k => ?_, fun rt' hne => ?_, rfl⟩
         · by_cases hm : k = rid
           · rw [if_pos hm]
             exact Smap.get_retainNotIn_of_mem _ _ _ (by simp [hm])
           · rw [if_neg hm]
             exact Smap.get_retainNotIn_of_not_mem _ _ _ (by simp [hm])
         · cases rt' <;> first | exact absurd rfl hne | rfl)
      | simp [hasDeleteSupport] at h

/-- Witness for `delete_removes_only_declared_kind`: with entries
`("A", Light)` and `("A", Scene)` in the cache, deleting `("A", Light)`
removes only the Light entry; the Scene entry with the same id remains. -/
theorem delete_removes_only_declared_kind_witness :
    ∃ c', delete_from_cache
        { lights := [("A", Json.null)], scenes := [("A", Json.null)] }
        [⟨"A", ResourceType.Light⟩] = .ok c' ∧
      Bridge.light c' "A" = none ∧
      Bridge.scene c' "A" = some Json.null := by
  obtain ⟨c', heq, hself, hother, _⟩ :=
    delete_removes_only_declared_kind
      { lights := [("A", Json.null)], scenes := [("A", Json.null)] }
      "A" ResourceType.Light rfl
  refine ⟨c', heq, ?_, ?_⟩
  · have := hself "A"
    rw [if_pos rfl] at this
    exact this
  · have := hother ResourceType.Scene (by intro hx; cases hx)
    show (mapOf c' ResourceType.Scene).get "A" = some Json.null
    rw [this]
    rfl

/-- `distinctsRtAux` yields nothing when every element is already seen. -/
theorem distinctsRtAux_all_seen (seen : List ResourceType) :
    ∀ (l : List ResourceType), (∀ x ∈ l, x ∈ seen) →
    distinctsRtAux seen l = [] := by
  intro l
  induction l with
  | nil => intro _; rfl
  | cons a tail ih =>
    intro hml
    have ha : a ∈ seen := hml a (List.mem_cons_self _ _)
    simp only [distinctsRtAux, if_pos ha]
    exact ih (fun x hx => hml x (List.mem_cons_of_mem _ hx))

/-- C10: unlike `send()`, the create/delete façade operations update the
Cache Store eagerly.  After a successful `delete_scene`, every identifier
acknowledged by the transport is removed from the cache before the call
returns, so a by-id read of a deleted scene yields `none` with no poll
tick or event; after a successful `create_scene`, the re-fetched scene is
immediately readable. -/
theorem create_and_delete_update_cache_eagerly :
    (∀ (c : BridgeCache) (res : List ResourceIdentifier),
      (∀ r ∈ res, r.rtype = ResourceType.Scene) →
      ∃ c', Bridge.delete_scene c res = .ok (c', res) ∧
        ∀ r ∈ res, Bridge.scene c' r.rid = none) ∧
    (∀ (c : BridgeCache) (d : RData),
      Bridge.scene (Bridge.create_scene c d).1 d.id = some d.doc) := by
  constructor
  · intro c res hall
    cases res with
    | nil =>
      exact ⟨c, rfl, fun r hr => absurd hr (List.not_mem_nil r)⟩
    | cons r rest =>
      have hr : r.rtype = ResourceType.Scene := hall r (List.mem_cons_self r rest)
      have hmaprt : (r :: rest).map ResourceIdentifier.rtype =
          ResourceType.Scene :: rest.map ResourceIdentifier.rtype := by
        simp [hr]
      have hseen : ∀ x ∈ rest.map ResourceIdentifier.rtype,
          x ∈ [ResourceType.Scene] := by
        intro x hx
        obtain ⟨y, hy, hxy⟩ := List.mem_map.mp hx
        simp [← hxy, hall y (List.mem_cons_of_mem _ hy)]
      have hrts : rtypesOf (r :: rest) = [ResourceType.Scene] := by
        rw [rtypesOf, distinctsRt, hmaprt]
        simp only [distinctsRtAux, List.not_mem_nil, if_false]
        rw [distinctsRtAux_all_seen _ _ hseen]
      have hfilter : (r :: rest).filter
          (fun x => decide (x.rtype = ResourceType.Scene)) = r :: rest :=
        List.filter_eq_self.mpr (fun a ha => by simp [hall a ha])
      have hids : idsFor (r :: rest) ResourceType.Scene =
          (r :: rest).map ResourceIdentifier.rid := by
        rw [idsFor, hfilter]
      have hdel : delete_from_cache c (r :: rest) =
          .ok { c with scenes :=
            c.scenes.retainNotIn ((r :: rest).map ResourceIdentifier.rid) } := by
        rw [delete_from_cache, hrts]
        simp only [List.foldlM_cons, List.foldlM_nil, hids]
        rfl
      refine ⟨{ c with scenes :=
          c.scenes.retainNotIn ((r :: rest).map ResourceIdentifier.rid) },
        ?_, fun x hx => ?_⟩
      · show Bridge.delete_scene c (r :: rest) = _
        rw [Bridge.delete_scene, hdel]
        rfl
      · show (Smap.retainNotIn c.scenes ((r :: rest).map ResourceIdentifier.rid)).get x.rid = none
        exact Smap.get_retainNotIn_of_mem _ _ _
          (List.mem_map_of_mem ResourceIdentifier.rid hx)
  · intro c d
    show (c.scenes.insert d.id d.doc).get d.id = some d.doc
    rw [Smap.get_insert]
    simp

/-- Witness for `create_and_delete_update_cache_eagerly`: deleting the
acknowledged scene identifier `("scene-1", Scene)` from a cache holding
that scene makes the by-id read return `none` immediately. -/
theorem create_and_delete_update_cache_eagerly_witness :
    ∃ c', Bridge.delete_scene { scenes := [("scene-1", Json.null)] }
        [⟨"scene-1", ResourceType.Scene⟩] =
      .ok (c', [⟨"scene-1", ResourceType.Scene⟩]) ∧
      ∀ r ∈ [(⟨"scene-1", ResourceType.Scene⟩ : ResourceIdentifier)],
        Bridge.scene c' r.rid = none :=
  create_and_delete_update_cache_eagerly.1
    { scenes := [("scene-1", Json.null)] }
    [⟨"scene-1", ResourceType.Scene⟩]
    (fun r hr => by cases hr with
      | head => rfl
      | tail _ h => cases h)

theorem ok_bind {α β : Type} (a : α) (f : α → Except String β) :
    (Except.ok a >>= f) = f a := rfl

/-- C1 (counterexample): an Update patch for a kind outside the handled
seven — here a Device patch whose id IS cached — is ignored by the
reconciler: the cache comes back unchanged even though an entry with the
payload's (id, kind) exists and merge-patching it would change it. -/
theorem update_ignores_unhandled_kinds :
    upsert_to_cache
      { devices := [("d1", Json.obj [("id", Json.str "d1"), ("a", Json.num 1)])] }
      [⟨"e1", "t",
        [HueEventData.Device (Json.obj [("id", Json.str "d1"), ("a", Json.num 2)])],
        HueEventType.Update⟩] =
      .ok ({ devices := [("d1", Json.obj [("id", Json.str "d1"), ("a", Json.num 1)])] }, []) ∧
    merge_resource_data (Json.obj [("id", Json.str "d1"), ("a", Json.num 1)])
        (Json.obj [("id", Json.str "d1"), ("a", Json.num 2)]) ≠
      Json.obj [("id", Json.str "d1"), ("a", Json.num 1)] :=
  ⟨rfl, by decide⟩

/-- C1 (amended): for the five kinds the Update branch can actually
receive a patch for (Button, DevicePower, Group, Light, Scene — the
Entertainment and EntertainmentConfiguration event variants are unit and
carry no document), a patch whose (id, kind) is cached replaces that entry
by the merge-patch of the stored entry with the patch (all other maps and
the singleton slot untouched), and a patch whose id is not cached leaves
the cache completely unchanged; every other event datum leaves the cache
unchanged unconditionally. -/
theorem update_merges_only_handled_kinds
    (c : BridgeCache) (chg : List ResourceIdentifier) (ed : HueEventData) :
    (∀ rt patch, updTarget ed = some (rt, patch) →
      ∀ id, expectId patch = .ok id →
        ((∀ data, (mapOf c rt).get id = some data →
          ∃ c', applyUpdateData (c, chg) ed = .ok (c', chg ++ [⟨id, rt⟩]) ∧
            mapOf c' rt = (mapOf c rt).insert id (merge_resource_data data patch) ∧
            (∀ rt', rt' ≠ rt → mapOf c' rt' = mapOf c rt') ∧
            c'.data = c.data) ∧
         ((mapOf c rt).get id = none →
          applyUpdateData (c, chg) ed = .ok (c, chg)))) ∧
    (updTarget ed = none → applyUpdateData (c, chg) ed = .ok (c, chg)) := by
  cases ed
  case Button patch' =>
    refine ⟨?_, fun hn => by simp [updTarget] at hn⟩
    intro rt patch heq
    simp only [updTarget] at heq
    injection heq with heq2
    obtain ⟨hrt, hpatch⟩ := Prod.mk.inj heq2
    subst hrt
    subst hpatch
    intro id hid
    constructor
    · intro data hdata
      refine ⟨{ c with buttons :=
          c.buttons.insert id (merge_resource_data data patch') },
        ?_, rfl, ?_, rfl⟩
      · have hdata' : Smap.get c.buttons id = some data := hdata
        simp only [applyUpdateData]
        rw [hid, ok_bind, hdata']
      · intro rt' hne
        cases rt' <;> first | exact absurd rfl hne | rfl
    · intro hnone
      have hnone' : Smap.get c.buttons id = none := hnone
      simp only [applyUpdateData]
      rw [hid, ok_bind, hnone']
  case DevicePower patch' =>
    refine ⟨?_, fun hn => by simp [updTarget] at hn⟩
    intro rt patch heq
    simp only [updTarget] at heq
    injection heq with heq2
    obtain ⟨hrt, hpatch⟩ := Prod.mk.inj heq2
    subst hrt
    subst hpatch
    intro id hid
    constructor
    · intro data hdata
      refine ⟨{ c with power :=
          c.power.insert id (merge_resource_data data patch') },
        ?_, rfl, ?_, rfl⟩
      · have hdata' : Smap.get c.power id = some data := hdata
        simp only [applyUpdateData]
        rw [hid, ok_bind, hdata']
      · intro rt' hne
        cases rt' <;> first | exact absurd rfl hne | rfl
    · intro hnone
      have hnone' : Smap.get c.power id = none := hnone
      simp only [applyUpdateData]
      rw [hid, ok_bind, hnone']
  case Group patch' =>
    refine ⟨?_, fun hn => by simp [updTarget] at hn⟩
    intro rt patch heq
    simp only [updTarget] at heq
    injection heq with heq2
    obtain ⟨hrt, hpatch⟩ := Prod.mk.inj heq2
    subst hrt
    subst hpatch
    intro id hid
    constructor
    · intro data hdata
      refine ⟨{ c with groups :=
          c.groups.insert id (merge_resource_data data patch') },
        ?_, rfl, ?_, rfl⟩
      · have hdata' : Smap.get c.groups id = some data := hdata
        simp only [applyUpdateData]
        rw [hid, ok_bind, hdata']
      · intro rt' hne
        cases rt' <;> first | exact absurd rfl hne | rfl
    · intro hnone
      have hnone' : Smap.get c.groups id = none := hnone
      simp only [applyUpdateData]
      rw [hid, ok_bind, hnone']
  case Light patch' =>
    refine ⟨?_, fun hn => by simp [updTarget] at hn⟩
    intro rt patch heq
    simp only [updTarget] at heq
    injection heq with heq2
    obtain ⟨hrt, hpatch⟩ := Prod.mk.inj heq2
    subst hrt
    subst hpatch
    intro id hid
    constructor
    · intro data hdata
      refine ⟨{ c with lights :=
          c.lights.insert id (merge_resource_data data patch') },
        ?_, rfl, ?_, rfl⟩
      · have hdata' : Smap.get c.lights id = some data := hdata
        simp only [applyUpdateData]
        rw [hid, ok_bind, hdata']
      · intro rt' hne
        cases rt' <;> first | exact absurd rfl hne | rfl
    · intro hnone
      have hnone' : Smap.get c.lights id = none := hnone
      simp only [applyUpdateData]
      rw [hid, ok_bind, hnone']
  case Scene patch' =>
    refine ⟨?_, fun hn => by simp [updTarget] at hn⟩
    intro rt patch heq
    simp only [updTarget] at heq
    injection heq with heq2
    obtain ⟨hrt, hpatch⟩ := Prod.mk.inj heq2
    subst hrt
    subst hpatch
    intro id hid
    constructor
    · intro data hdata
      refine ⟨{ c with scenes :=
          c.scenes.insert id (merge_resource_data data patch') },
        ?_, rfl, ?_, rfl⟩
      · have hdata' : Smap.get c.scenes id = some data := hdata
        simp only [applyUpdateData]
        rw [hid, ok_bind, hdata']
      · intro rt' hne
        cases rt' <;> first | exact absurd rfl hne | rfl
    · intro hnone
      have hnone' : Smap.get c.scenes id = none := hnone
      simp only [applyUpdateData]
      rw [hid, ok_bind, hnone']
  all_goals exact ⟨fun rt patch heq => by simp [updTarget] at heq, fun _ => rfl⟩

/-- Witness for `update_merges_only_handled_kinds`: a Light patch with a
cached base entry is merge-patched in place. -/
theorem update_merges_only_handled_kinds_witness :
    ∃ c', applyUpdateData
        ({ lights := [("l1", Json.obj [("on", Json.obj [("on", Json.bool false)])])] }, [])
        (HueEventData.Light (Json.obj [("id", Json.str "l1"),
          ("on", Json.obj [("on", Json.bool true)])])) =
      .ok (c', [] ++ [⟨"l1", ResourceType.Light⟩]) ∧
      mapOf c' ResourceType.Light =
        (mapOf { lights := [("l1", Json.obj [("on", Json.obj [("on", Json.bool false)])])] }
          ResourceType.Light).insert "l1"
          (merge_resource_data (Json.obj [("on", Json.obj [("on", Json.bool false)])])
            (Json.obj [("id", Json.str "l1"), ("on", Json.obj [("on", Json.bool true)])])) ∧
      (∀ rt', rt' ≠ ResourceType.Light →
        mapOf c' rt' =
          mapOf { lights := [("l1", Json.obj [("on", Json.obj [("on", Json.bool false)])])] } rt') ∧
      c'.data =
        ({ lights := [("l1", Json.obj [("on", Json.obj [("on", Json.bool false)])])] } : BridgeCache).data :=
  ((update_merges_only_handled_kinds
      { lights := [("l1", Json.obj [("on", Json.obj [("on", Json.bool false)])])] }
      []
      (HueEventData.Light (Json.obj [("id", Json.str "l1"),
        ("on", Json.obj [("on", Json.bool true)])]))).1
    ResourceType.Light _ rfl "l1" rfl).1
    (Json.obj [("on", Json.obj [("on", Json.bool false)])]) rfl

/-- C6: merge-patch merges objects recursively key by key (each patched
key's value is merged onto the stored value, keys absent from the patch
survive unchanged, `null` deletes), while a non-object patch — array or
scalar — replaces the stored document wholesale; merging
`{"on":{"on":true}}` onto a stored Light document
`{"on":{"on":false},"dimming":{"brightness":80}}` yields
`{"on":{"on":true},"dimming":{"brightness":80}}`. -/
theorem merge_patch_field_semantics :
    (∀ (ds ps : List (String × Json)), (ps.map Prod.fst).Nodup →
      ∀ k, (Json.merge (.obj ds) (.obj ps)).jget k =
        match Json.getKey ps k with
        | none => Json.getKey ds k
        | some v =>
          if v = .null then none
          else some (Json.merge ((Json.getKey ds k).getD .null) v)) ∧
    (∀ (doc : Json) (elems : List Json), Json.merge doc (.arr elems) = .arr elems) ∧
    (∀ (doc : Json) (n : Int), Json.merge doc (.num n) = .num n) ∧
    (∀ (doc : Json) (s : String), Json.merge doc (.str s) = .str s) ∧
    (∀ (doc : Json) (b : Bool), Json.merge doc (.bool b) = .bool b) ∧
    merge_resource_data
        (Json.obj [("on", Json.obj [("on", Json.bool false)]),
                   ("dimming", Json.obj [("brightness", Json.num 80)])])
        (Json.obj [("on", Json.obj [("on", Json.bool true)])]) =
      Json.obj [("on", Json.obj [("on", Json.bool true)]),
                ("dimming", Json.obj [("brightness", Json.num 80)])] := by
  refine ⟨?_, ?_, ?_, ?_, ?_, ?_⟩
  · intro ds ps hnd k
    show Json.getKey (Json.mergeEntries ds ps) k = _
    exact Json.getKey_mergeEntries ps hnd ds k
  · intro doc elems; rfl
  · intro doc n; rfl
  · intro doc s; rfl
  · intro doc b; rfl
  · rfl

/-- Witness for `merge_patch_field_semantics`: the recursive-merge clause
evaluated at a concrete document and patch. -/
theorem merge_patch_field_semantics_witness :
    (List.map Prod.fst [("b", Json.num 2)]).Nodup ∧
    ((Json.merge (.obj [("a", Json.num 1)]) (.obj [("b", Json.num 2)])).jget "a" =
      match Json.getKey [("b", Json.num 2)] "a" with
      | none => Json.getKey [("a", Json.num 1)] "a"
      | some v =>
        if v = .null then none
        else some (Json.merge ((Json.getKey [("a", Json.num 1)] "a").getD .null) v)) :=
  ⟨by decide, merge_patch_field_semantics.1 _ _ (by decide) "a"⟩

end Hues
